/-
Verification of the calendar-assistant backend (tool layer, agent loop,
realtime duplex session) against its natural-language specification.

Shallow embedding conventions:
* wall-clock timestamps and UTC instants are integers (minutes for the
  timezone layer, seconds for the slot scan, matching the granularity the
  corresponding Python code computes with);
* the Google-calendar collaborator, the Firestore history collaborator and
  the language model are abstracted as explicit inputs (their responses are
  parameters of the embedded functions);
* Python exceptions that a function catches are modelled by `Option` /
  explicit error constructors; functions that never let an exception escape
  are total.
-/
import Mathlib

/-- Splitting of a character list on one separator character, the model of
Python's `str.split(":")` used by `parse_timezone_offset` (a single-character
separator; like Python, the empty input yields one empty part). -/
def split_on_char (sep : Char) : List Char → List (List Char)
  | [] => [[]]
  | x :: xs =>
    let rest := split_on_char sep xs
    if x = sep then [] :: rest
    else
      match rest with
      | [] => [[x]]
      | h :: t => (x :: h) :: t

/-- Model of Python `int(s)` applied to the characters of a string:
optional surrounding whitespace, an optional single sign, then one or more
decimal digits; `none` models `ValueError`. -/
def pyIntChars? (l : List Char) : Option Int :=
  let t := ((l.dropWhile Char.isWhitespace).reverse.dropWhile Char.isWhitespace).reverse
  let signed : Int × List Char :=
    match t with
    | '+' :: rest => (1, rest)
    | '-' :: rest => (-1, rest)
    | _ => (1, t)
  let digits := signed.2
  if digits ≠ [] ∧ digits.all Char.isDigit then
    some (signed.1 * ((digits.foldl (fun acc c => acc * 10 + (c.toNat - 48)) 0 : Nat) : Int))
  else
    none

/-- The hours component `int(parts[0])` of `parse_timezone_offset`
(tools.py lines 24-25), where `parts = offset_str[1:].split(":")`;
`none` models a `ValueError` from `int`. -/
def tz_hours_field (offset_str : String) : Option Int :=
  pyIntChars? ((split_on_char ':' (offset_str.toList.drop 1)).headD [])

/-- The minutes component `int(parts[1]) if len(parts) > 1 else 0` of
`parse_timezone_offset` (tools.py line 26). -/
def tz_minutes_field (offset_str : String) : Option Int :=
  let parts := split_on_char ':' (offset_str.toList.drop 1)
  if parts.length > 1 then pyIntChars? (parts.getD 1 []) else some 0

/-- Embedding of `parse_timezone_offset` (src/backend/app/llm/tools.py,
lines 8-38), returning the fixed UTC offset in minutes.  An absent argument
is modelled by the empty string.  The Python `try` catches `ValueError` and
`IndexError` and returns UTC: a failing `int(...)` is the `none` case of the
fields, and `timezone(delta)` raising for an offset of magnitude reaching 24
hours is the final range check.  Note that a first character other than
`'+'` is treated exactly like `'-'` (the code's `else` branch). -/
def parse_timezone_offset (offset_str : String) : Int :=
  if offset_str = "" ∨ offset_str = "UTC" then 0
  else
    match tz_hours_field offset_str, tz_minutes_field offset_str with
    | some hours, some minutes =>
      let delta :=
        if offset_str.toList.headD ' ' = '+' then hours * 60 + minutes
        else -(hours * 60 + minutes)
      if -1440 < delta ∧ delta < 1440 then delta else 0
    | _, _ => 0

/-- Localization rule of the tool layer: a naive wall-clock value `wall`
carrying offset `off` (minutes) denotes the UTC instant `wall - off`.  This
is `dt.replace(tzinfo=user_tz).astimezone(timezone.utc)` in tools.py lines
294 and 306-307. -/
def localizeToUtc (wall off : Int) : Int := wall - off

/-- Wall clock shown for the UTC instant `u` in offset `off`:
`instant.astimezone(user_tz)` re-rendering. -/
def wallClockAt (u off : Int) : Int := u + off

/-- Interpretation `check_availability` gives a naive timestamp
(tools.py lines 119-125): `datetime.fromisoformat` keeps it naive and
`format_datetime_for_api` attaches `tzinfo=timezone.utc`, so the wall-clock
value is taken to be the UTC instant itself, with no localization. -/
def check_availability_instant (wall : Int) : Int := wall

/-- Outcome of the calendar collaborator calls made by `create_event`
(token fetch, service construction, insert): `ok` when everything
succeeds, `refreshError` for `RefreshError`, `apiError` otherwise. -/
inductive CalCollab
  | ok
  | refreshError
  | apiError (msg : String)
deriving DecidableEq

/-- Result of the embedded `create_event`. -/
inductive CreateOutcome
  | created (startUtc endUtc : Int) (pastWarning : Bool)
  | credentialsExpired
  | apiError (msg : String)
deriving DecidableEq

/-- Embedding of `create_event` (tools.py lines 237-374) at the instant
level: wall-clock start/end in minutes, the optional `user_timezone`
offset string, the current UTC instant, and the collaborator outcome.
The code parses the naive timestamps, localizes them with the parsed
offset (line 294-295), compares the localized start against `now` in the
user's offset for a warning that does not block creation (lines 299-303),
converts both to UTC (lines 306-307) and inserts.  There is no
validation that the end lies after the start. -/
def create_event (startWall endWall : Int) (user_timezone : Option String)
    (nowUtc : Int) (collab : CalCollab) : CreateOutcome :=
  match collab with
  | .refreshError => .credentialsExpired
  | .apiError m => .apiError m
  | .ok =>
    let tzStr := user_timezone.getD "+00:00"
    let off := parse_timezone_offset tzStr
    let startUtc := localizeToUtc startWall off
    let endUtc := localizeToUtc endWall off
    let warned := decide (startUtc < nowUtc)
    .created startUtc endUtc warned

/-- Python default for `duration_minutes` in `find_available_slots`
(tools.py line 166). -/
def default_duration_minutes : Int := 30

/-- Widening of a date-only start (tools.py lines 185-186): a timestamp
whose time-of-day is midnight is moved to 09:00 of the same day.  Times are
seconds since a midnight-aligned epoch, so time-of-day is `t % 86400`. -/
def widen_start (t : Int) : Int := if t % 86400 = 0 then t + 9 * 3600 else t

/-- Widening of a date-only end (tools.py lines 187-188): midnight is moved
to 17:00 of the same day. -/
def widen_end (t : Int) : Int := if t % 86400 = 0 then t + 17 * 3600 else t

/-- A Python `datetime` as `find_available_slots` manipulates it: its
instant in seconds (wall-clock seconds for a naive value, UTC seconds for
an offset-aware one) and whether it carries a `tzinfo`.  Python refuses to
subtract or compare a naive and an aware datetime (`TypeError`). -/
structure PyDt where
  instant : Int
  aware : Bool
deriving DecidableEq

/-- An event boundary as the calendar collaborator delivers it on the wire
(tools.py lines 209-210): a timed event has a `dateTime` field, an RFC3339
instant with a `Z` or offset marker (the wire format of
`format_datetime_for_api`), so `datetime.fromisoformat` after the
`.replace('Z', '+00:00')` yields an offset-aware value; an all-day event
has only a `date` field, which parses to a naive midnight. -/
inductive WireDt
  | timed (utcSeconds : Int)
  | dateOnly (midnightSeconds : Int)
deriving DecidableEq

/-- The parse of one wire event boundary performed inside the scan loop
(tools.py lines 209-210). -/
def parse_event_dt : WireDt → PyDt
  | .timed u => ⟨u, true⟩
  | .dateOnly m => ⟨m, false⟩

/-- Fixed text standing for the `TypeError` Python raises on a mixed
naive/aware subtraction or comparison. -/
def naive_aware_type_error : String :=
  "Error finding available slots: naive and offset-aware datetimes"

/-- Python datetime subtraction: the timedelta in seconds, or `none` for
the `TypeError` on mixed naive/aware operands. -/
def py_sub? (a b : PyDt) : Option Int :=
  if a.aware = b.aware then some (a.instant - b.instant) else none

/-- Python datetime `<`: `none` for the `TypeError` on mixed naive/aware
operands. -/
def py_lt? (a b : PyDt) : Option Bool :=
  if a.aware = b.aware then some (decide (a.instant < b.instant)) else none

/-- Python `max(a, b)` on datetimes (keeps the first argument on a tie);
`none` for the `TypeError` on mixed naive/aware operands. -/
def py_max? (a b : PyDt) : Option PyDt :=
  match py_lt? a b with
  | none => none
  | some true => some b
  | some false => some a

/-- Cursor scan of `find_available_slots` (tools.py lines 204-225), with
the error path kept: each event boundary is parsed from the wire inside
the loop, the gap `event_start - current_time` is a Python subtraction
that raises `TypeError` when the cursor is naive and the event is
offset-aware, and the blanket `except` at line 233 turns any such raise
into an error string, discarding every slot found so far.  On success,
a slot is emitted when the gap before an event is at least the duration,
the cursor advances to `max cursor event.end`, and after the last event
one final slot is emitted when the cursor is strictly before the interval
end and the remaining gap is at least the duration. -/
def scan_slots (cursor : PyDt) (durationMinutes : Int) (endT : PyDt) :
    List (WireDt × WireDt) → Except String (List (Int × Int))
  | [] =>
    match py_lt? cursor endT with
    | none => .error naive_aware_type_error
    | some false => .ok []
    | some true =>
      match py_sub? endT cursor with
      | none => .error naive_aware_type_error
      | some gap =>
        .ok (if gap ≥ durationMinutes * 60 then
              [(cursor.instant, cursor.instant + durationMinutes * 60)]
            else [])
  | e :: rest =>
    let event_start := parse_event_dt e.1
    let event_end := parse_event_dt e.2
    match py_sub? event_start cursor with
    | none => .error naive_aware_type_error
    | some gap =>
      let emitted :=
        if gap ≥ durationMinutes * 60 then
          [(cursor.instant, cursor.instant + durationMinutes * 60)]
        else []
      match py_max? cursor event_end with
      | none => .error naive_aware_type_error
      | some cursor2 =>
        match scan_slots cursor2 durationMinutes endT rest with
        | .error m => .error m
        | .ok slots => .ok (emitted ++ slots)

/-- Embedding of `find_available_slots` (tools.py lines 166-234).  The
start and end arguments are the naive wall-clock values that
`datetime.fromisoformat` yields for the documented
`YYYY-MM-DD[THH:MM:SS]` inputs (line 181-182); date-only bounds are
widened to the 09:00-17:00 business window, and the cursor scan runs from
the (widened, still naive) interval start over the wire events. -/
def find_available_slots (startWall endWall : Int) (durationMinutes : Int)
    (events : List (WireDt × WireDt)) : Except String (List (Int × Int)) :=
  scan_slots ⟨widen_start startWall, false⟩ durationMinutes
    ⟨widen_end endWall, false⟩ events

/-- Modelled from the spec (section 4.2, reference algorithm for
`find_available_slots`): scan events in chronological order with a cursor;
for each event, if `event.start - cursor >= duration`, emit
`[cursor, cursor + duration)`; advance the cursor to
`max cursor event.end`; after the last event, if
`interval.end - cursor >= duration`, emit one final slot.  `dur` is the
duration in seconds. -/
def spec_scan (cursor dur endT : Int) : List (Int × Int) → List (Int × Int)
  | [] => if endT - cursor ≥ dur then [(cursor, cursor + dur)] else []
  | e :: rest =>
    (if e.1 - cursor ≥ dur then [(cursor, cursor + dur)] else []) ++
      spec_scan (max cursor e.2) dur endT rest

/-- One event as `check_availability` reads it from the calendar response
(tools.py lines 143-148): display summary and raw start/end strings. -/
structure GEvent where
  summary : String
  startStr : String
  endStr : String
deriving DecidableEq

/-- Outcome of the calendar list call made by `check_availability`:
the item list on success (in the calendar's own chronological order,
`orderBy="startTime"`), or one of the two caught failure classes. -/
inductive CalListResult
  | ok (items : List GEvent)
  | refreshError
  | otherError (msg : String)
deriving DecidableEq

/-- Rendering of one conflicting event (tools.py line 148). -/
def render_busy_event (e : GEvent) : String :=
  "  • " ++ e.summary ++ " (" ++ e.startStr ++ " → " ++ e.endStr ++ ")"

/-- The distinct free outcome of `check_availability` (tools.py line 139). -/
def free_message (startS endS : String) : String :=
  "✓ You are free from " ++ startS ++ " to " ++ endS ++ "."

/-- Fixed remediation message for `RefreshError` (tools.py line 154). -/
def refresh_error_message : String :=
  "Your Google account access has expired. Please log out and log back in to refresh your calendar permissions."

/-- The `busy_events` accumulation loop of `check_availability`
(tools.py lines 141-148), appending one line per item in iteration order. -/
def busy_loop : List GEvent → List String → List String
  | [], acc => acc
  | e :: rest, acc => busy_loop rest (acc ++ [render_busy_event e])

/-- Embedding of the result construction of `check_availability`
(tools.py lines 127-162): free message when the calendar returns no items,
otherwise the conflict list rendered in the calendar's order; the two
caught exception classes yield their text results. -/
def check_availability_render (startS endS : String) (res : CalListResult) : String :=
  match res with
  | .refreshError => refresh_error_message
  | .otherError m => "Error checking availability: " ++ m
  | .ok items =>
    if items = [] then free_message startS endS
    else
      "You have " ++ toString items.length ++
        " conflicting event(s) during this time:\n" ++
        String.intercalate "\n" (busy_loop items [])

/-- String-level model of `format_datetime_for_api ∘ datetime.fromisoformat`
(tools.py lines 41-56) on a canonical naive ISO string: the naive value is
tagged `tzinfo=timezone.utc` unchanged and rendered with the `Z` zero-offset
marker, so the wall-clock text is reused as the UTC instant. -/
def format_datetime_for_api (s : String) : String := s ++ "Z"

/-- Lookup in the Python-dict model (association list; the first binding
for a key is its current value). -/
def dict_get (args : List (String × String)) (k : String) : Option String :=
  (args.find? (fun p => p.1 = k)).map Prod.snd

/-- Python dict assignment `args[k] = v`, lookup-equivalently modelled by
prepending the new binding (it shadows any older one). -/
def dict_set (args : List (String × String)) (k v : String) : List (String × String) :=
  (k, v) :: args

/-- Declared parameters of the `check_availability` tool
(tools.py line 95): the signature is `(user_id, start, end)`; there is no
timezone parameter, and schema validation passes through only declared
parameters. -/
def check_availability_params : List String := ["user_id", "start", "end"]

/-- Embedding of one iteration of `process_tool_calls` (graph.py lines
96-117) for a `check_availability` call: the loop copies the model's args,
injects `user_timezone` (line 102), and invokes the tool, whose schema
admits only `user_id`, `start`, `end`; the tool then queries the calendar
collaborator `cal` with the naive timestamps formatted as UTC instants and
renders the result.  A missing required argument raises inside `invoke`,
caught at line 112 and turned into an error result. -/
def dispatch_check_availability (args : List (String × String))
    (user_timezone : String) (cal : String → String → CalListResult) : String :=
  let argsWithTz := dict_set args "user_timezone" user_timezone
  match dict_get argsWithTz "user_id", dict_get argsWithTz "start", dict_get argsWithTz "end" with
  | some _, some s, some e =>
    check_availability_render s e (cal (format_datetime_for_api s) (format_datetime_for_api e))
  | _, _, _ => "Error: missing required argument"

/-- A tool call as produced by the model (graph.py lines 96-98): id and
name; the argument payload is irrelevant to the dispatch bookkeeping and
is absorbed into the executor function. -/
structure PyToolCall where
  id : String
  name : String
deriving DecidableEq

/-- A tool result as accumulated by `process_tool_calls`
(graph.py lines 107-111). -/
structure PyToolResult where
  tool_use_id : String
  content : String
deriving DecidableEq

/-- The tool registry of graph.py (lines 30-36), from which `tool_map` is
built at line 91. -/
def registered_tool_names : List String :=
  ["get_current_time", "check_availability", "find_available_slots",
   "create_event", "get_upcoming_events"]

/-- Embedding of the dispatch loop of `process_tool_calls` (graph.py lines
96-117): `exec` models `tool_map[name].invoke` together with the `except`
branch, so it is total (exceptions become error strings).  A call whose
name is not in `tool_map` fails the `if tool_name in tool_map` test and
falls through with no result appended. -/
def process_tool_calls (calls : List PyToolCall) (exec : PyToolCall → String) : List PyToolResult :=
  match calls with
  | [] => []
  | c :: rest =>
    (if c.name ∈ registered_tool_names then [⟨c.id, exec c⟩] else []) ++
      process_tool_calls rest exec

/-- A message in the final graph state as `run_graph` inspects it
(graph.py lines 187-214): its role, its `content`, whether the Python
object has a `tool_calls` attribute, and its `str(...)` rendering used by
the fallback branch. -/
structure GraphMsg where
  role : String
  content : String
  hasToolCallsAttr : Bool
  pyStr : String
deriving DecidableEq

/-- One operation on the conversation-history collaborator
(app/db/firestore.py): an append of a turn, or a full clear. -/
inductive StoreOp
  | append (role content : String)
  | clear
deriving DecidableEq

/-- The reversed scan of `run_graph` (graph.py lines 197-201): first
message from the end that is an `AIMessage` without a `tool_calls`
attribute; returns the empty string when none matches. -/
def find_final_aux : List GraphMsg → String
  | [] => ""
  | m :: rest =>
    if m.role = "assistant" ∧ ¬ m.hasToolCallsAttr then m.content else find_final_aux rest

/-- Final-response extraction of `run_graph` (graph.py lines 193-214):
the reversed scan, then the fallback to the last message (its content when
it is an `AIMessage`, its `str(...)` otherwise) when the scan produced a
falsy string. -/
def extract_final_response (msgs : List GraphMsg) : String :=
  let fromScan := find_final_aux msgs.reverse
  if fromScan ≠ "" then fromScan
  else
    match msgs.getLast? with
    | none => ""
    | some m => if m.role = "assistant" then m.content else m.pyStr

/-- Model of the Python test `"tool_call" in str(e).lower()` of graph.py
line 228 (`"tool_call_id" in ...` is subsumed by it). -/
def mentions_tool_call (e : String) : Bool :=
  ((e.toLower).splitOn "tool_call").length > 1

/-- What one `run_graph` invocation does: the ordered operations it issues
to the conversation-history collaborator, and the response it returns. -/
structure RunGraphOutcome where
  ops : List StoreOp
  response : String
deriving DecidableEq

/-- Embedding of `run_graph` (graph.py lines 141-234) on the path where
the history load succeeded: the user turn is saved (line 169) before the
graph is invoked; `graphResult` abstracts `graph.invoke` as either the
final message list or an exception rendered as its message string.  On
success the assistant turn is saved (line 218) exactly when the extracted
final response is non-empty; on an exception whose text mentions
`tool_call` the persisted history is cleared (line 231). -/
def run_graph (message : String) (graphResult : Except String (List GraphMsg)) : RunGraphOutcome :=
  match graphResult with
  | .error e =>
    if mentions_tool_call e then
      ⟨[StoreOp.append "user" message, StoreOp.clear],
       "I encountered an error with the previous conversation. Please try your request again."⟩
    else
      ⟨[StoreOp.append "user" message], "Error processing calendar request: " ++ e⟩
  | .ok msgs =>
    let final := extract_final_response msgs
    if final ≠ "" then
      ⟨[StoreOp.append "user" message, StoreOp.append "assistant" final], final⟩
    else
      ⟨[StoreOp.append "user" message], "No response generated"⟩

/-- Outbound sends on the model connection that RealtimeHandler can issue
while a tool call is being handled (realtime_handler.py): the
conversation-item injection (line 454), the response request (line 478),
and the inbound-audio append issued by the other task (line 274). -/
inductive RtSend
  | conversationItemCreate
  | responseCreate
  | inputAudioAppend
deriving DecidableEq

/-- All cooperative interleavings of two tasks given as lists of atomic
segments (code between `await` yield points runs without interleaving on
one asyncio event loop; at a yield point the other task may run). -/
def interleave_segs {α : Type} : List (List α) → List (List α) → List (List α)
  | [], ys => [ys.flatten]
  | x :: xs, [] => [(x :: xs).flatten]
  | x :: xs, y :: ys =>
    (interleave_segs xs (y :: ys)).map (fun t => x ++ t) ++
      (interleave_segs (x :: xs) ys).map (fun t => y ++ t)
termination_by a b => a.length + b.length

/-- Atomic send segments of `_handle_tool_call` (realtime_handler.py lines
440-479): the synchronous send at line 454, then the `await
asyncio.sleep(0.2)` at line 473 — a yield point — then the synchronous
send at line 478. -/
def tool_call_send_segments : List (List RtSend) :=
  [[RtSend.conversationItemCreate], [RtSend.responseCreate]]

/-- Atomic send segment of `_handle_audio_data` (realtime_handler.py lines
266-284): one synchronous send of an `input_audio_buffer.append` event,
issued by the websocket-receive task which runs concurrently with
`_handle_tool_call`. -/
def audio_send_segments : List (List RtSend) :=
  [[RtSend.inputAudioAppend]]

/-- Every send order on the model connection that the asyncio scheduler
can produce while one tool-call interception overlaps one inbound audio
frame. -/
def session_send_traces : List (List RtSend) :=
  interleave_segs tool_call_send_segments audio_send_segments

/-- C5 counterexample: the string "05:30" is malformed (it is non-empty,
is not "UTC", and starts with neither '+' nor '-'), yet
`parse_timezone_offset` returns the non-zero offset -330 minutes: the
first character '0' falls into the `else` branch of the sign test and the
remaining digits parse, so the input is treated like "-5:30". -/
theorem parse_timezone_offset_malformed_not_utc :
    parse_timezone_offset "05:30" = -330 ∧ (-330 : Int) ≠ 0 ∧
    "05:30" ≠ "" ∧ "05:30" ≠ "UTC" ∧
    "05:30".toList.headD ' ' ≠ '+' ∧ "05:30".toList.headD ' ' ≠ '-' := by
  refine ⟨by decide, by decide, by decide, by decide, by decide, by decide⟩

/-- C5 (amended): `parse_timezone_offset` is total (never raises); empty
and "UTC" inputs yield the UTC offset; an input whose hour or minute field
fails integer parsing yields the UTC offset; and every result is a valid
fixed offset strictly within ±24 hours.  But not every malformed string
yields UTC: a parseable numeric body whose first character is not '+' is
treated as negative (see the counterexample). -/
theorem parse_timezone_offset_lenient (s : String) :
    ((s = "" ∨ s = "UTC") → parse_timezone_offset s = 0) ∧
    (tz_hours_field s = none → parse_timezone_offset s = 0) ∧
    (tz_minutes_field s = none → parse_timezone_offset s = 0) ∧
    (-1440 < parse_timezone_offset s ∧ parse_timezone_offset s < 1440) := by
  have hdelta : ∀ delta : Int,
      (-1440 < if -1440 < delta ∧ delta < 1440 then delta else 0) ∧
      (if -1440 < delta ∧ delta < 1440 then delta else 0) < 1440 := by
    intro delta
    split
    · omega
    · norm_num
  unfold parse_timezone_offset
  split
  · exact ⟨fun _ => rfl, fun _ => rfl, fun _ => rfl, by norm_num⟩
  next hne =>
    refine ⟨fun h => absurd h hne, ?_, ?_, ?_⟩
    · intro h
      rw [h]
    · intro h
      rw [h]
      cases tz_hours_field s <;> rfl
    · rcases tz_hours_field s with _ | hours
      · norm_num
      · rcases tz_minutes_field s with _ | minutes
        · norm_num
        · dsimp only
          exact hdelta _

/-- C5 witness: the theorem applied at concrete inputs — "UTC" maps to the
zero offset, and "bogus" (whose hour field fails to parse) maps to the
zero offset. -/
theorem parse_timezone_offset_lenient_witness :
    parse_timezone_offset "UTC" = 0 ∧ parse_timezone_offset "bogus" = 0 :=
  ⟨(parse_timezone_offset_lenient "UTC").1 (Or.inr rfl),
   (parse_timezone_offset_lenient "bogus").2.1 (by decide)⟩

/-- C2 counterexample: a `create_event` call whose end (wall clock 50) is
not after its start (wall clock 100) does not fail with any error — with a
healthy collaborator it proceeds to creation and returns the created
outcome; no InvalidInterval validation exists in tools.py lines 275-313. -/
theorem create_event_accepts_inverted_interval :
    create_event 100 50 (some "UTC") 0 CalCollab.ok = CreateOutcome.created 100 50 false ∧
    ¬ (50 : Int) > 100 := by
  exact ⟨by decide, by decide⟩

/-- C2 (amended): `create_event` performs no start/end ordering validation:
for every start, end, offset string and current instant, a call with a
healthy collaborator yields the created outcome, storing the localized
start and end, with the past-start warning raised exactly when the
localized start lies before now — the warning never blocks creation. -/
theorem create_event_no_interval_validation (s e now : Int) (tz : Option String) :
    ∃ su eu w, create_event s e tz now CalCollab.ok = CreateOutcome.created su eu w ∧
      su = localizeToUtc s (parse_timezone_offset (tz.getD "+00:00")) ∧
      eu = localizeToUtc e (parse_timezone_offset (tz.getD "+00:00")) ∧
      (w = true ↔ su < now) := by
  refine ⟨_, _, _, rfl, rfl, rfl, ?_⟩
  exact ⟨of_decide_eq_true, decide_eq_true⟩

/-- C6: for every start < end and every offset string, the UTC instants
stored by `create_event` re-localize with the same offset exactly to the
original wall-clock start and end. -/
theorem create_event_roundtrip (s e now : Int) (tz : String) (hlt : s < e) :
    ∃ su eu w, create_event s e (some tz) now CalCollab.ok = CreateOutcome.created su eu w ∧
      wallClockAt su (parse_timezone_offset tz) = s ∧
      wallClockAt eu (parse_timezone_offset tz) = e := by
  refine ⟨_, _, _, rfl, ?_, ?_⟩ <;>
    · simp only [wallClockAt, localizeToUtc, Option.getD_some]
      omega

/-- C6 witness: the round trip at start 0, end 60, offset "+05:30". -/
theorem create_event_roundtrip_witness :
    ∃ su eu w, create_event 0 60 (some "+05:30") 0 CalCollab.ok = CreateOutcome.created su eu w ∧
      wallClockAt su (parse_timezone_offset "+05:30") = 0 ∧
      wallClockAt eu (parse_timezone_offset "+05:30") = 60 :=
  create_event_roundtrip 0 60 0 "+05:30" (by decide)

/-- C1: the two tools do not interpret the same naive timestamp at the
same instant.  At wall clock 720 minutes (12:00) with user offset "+05:30",
`check_availability` queries the UTC instant 720 (12:00 UTC, no
localization), while `create_event` stores the localized UTC instant
390 (06:30 UTC) — the instants diverge whenever the offset is non-zero,
although the code's own system prompt instructs the model to pass local
wall-clock times to every tool. -/
theorem check_availability_create_event_divergence :
    check_availability_instant 720 = 720 ∧
    create_event 720 750 (some "+05:30") 0 CalCollab.ok = CreateOutcome.created 390 420 false ∧
    localizeToUtc 720 (parse_timezone_offset "+05:30") ≠ check_availability_instant 720 := by
  refine ⟨rfl, by decide, by decide⟩

/-- C3: at the claim's own example the code does not return the claimed
slots.  The naive window [09:00, 17:00) (seconds from midnight) with the
default duration 30 and the single timed event (10:00Z, 10:30Z) from the
calendar makes `find_available_slots` return the error string: the
offset-aware event start (parsed from the Z-marked wire value) is
subtracted from the naive cursor, raising `TypeError`, caught by the
blanket `except` into an error result.  The spec's reference scan on the
same instants yields exactly the two claimed slots [09:00, 09:30) and
[10:30, 11:00), and the code does follow the scan when no event forces a
mixed subtraction (empty event list shown), so the cursor scan is the
intent and the naive/aware mix is the slip. -/
theorem find_available_slots_naive_aware_crash :
    find_available_slots 32400 61200 default_duration_minutes
        [(WireDt.timed 36000, WireDt.timed 37800)] =
      Except.error naive_aware_type_error ∧
    spec_scan 32400 (default_duration_minutes * 60) 61200 [(36000, 37800)] =
      [(32400, 34200), (37800, 39600)] ∧
    find_available_slots 32400 61200 default_duration_minutes [] =
      Except.ok [(32400, 34200)] := by
  exact ⟨rfl, by decide, rfl⟩

theorem busy_loop_eq_map (items : List GEvent) :
    ∀ acc, busy_loop items acc = acc ++ items.map render_busy_event := by
  induction items with
  | nil => intro acc; simp [busy_loop]
  | cons e rest ih =>
    intro acc
    simp [busy_loop, ih]

theorem head?_data_append_left (a b : String) (c : Char)
    (h : a.data.head? = some c) : (a ++ b).data.head? = some c := by
  have hne : a.data ≠ [] := by
    intro e
    rw [e] at h
    exact Option.noConfusion h
  rw [String.data_append, List.head?_append_of_ne_nil _ hne, h]

theorem free_message_head (s e : String) :
    (free_message s e).data.head? = some '✓' := by
  unfold free_message
  exact head?_data_append_left _ _ _
    (head?_data_append_left _ _ _
      (head?_data_append_left _ _ _
        (head?_data_append_left _ _ _ (by decide))))

theorem ne_free_of_head (m s e : String) (c : Char)
    (hm : m.data.head? = some c) (hc : c ≠ '✓') : m ≠ free_message s e := by
  intro heq
  rw [heq, free_message_head] at hm
  exact hc (Option.some.inj hm).symm

/-- C9: `check_availability` renders the distinct free message exactly when
the calendar collaborator succeeded with zero overlapping events — never on
an error path and never for a non-empty conflict list — and for a non-empty
item list it renders one conflict line per event, in the calendar's own
order. -/
theorem check_availability_free_outcome (s e : String) (res : CalListResult) :
    (check_availability_render s e res = free_message s e ↔ res = CalListResult.ok []) ∧
    (∀ items : List GEvent, items ≠ [] →
      check_availability_render s e (CalListResult.ok items) =
        "You have " ++ toString items.length ++
          " conflicting event(s) during this time:\n" ++
          String.intercalate "\n" (items.map render_busy_event)) := by
  constructor
  · constructor
    · intro h
      cases res with
      | ok items =>
        cases items with
        | nil => rfl
        | cons a t =>
          exfalso
          refine ne_free_of_head _ s e 'Y' ?_ (by decide) h
          show (check_availability_render s e (CalListResult.ok (a :: t))).data.head? = some 'Y'
          simp only [check_availability_render, if_neg (List.cons_ne_nil a t)]
          exact head?_data_append_left _ _ _
            (head?_data_append_left _ _ _
              (head?_data_append_left _ _ _ (by decide)))
      | refreshError =>
        exact absurd h (ne_free_of_head refresh_error_message s e 'Y' (by decide) (by decide))
      | otherError m =>
        exact absurd h
          (ne_free_of_head ("Error checking availability: " ++ m) s e 'E'
            (head?_data_append_left _ _ _ (by decide)) (by decide))
    · rintro rfl
      rfl
  · intro items hne
    simp only [check_availability_render, if_neg hne, busy_loop_eq_map, List.nil_append]

/-- C9 witness: with one overlapping event the rendered result is the
conflict message with that event's line, not the free message. -/
theorem check_availability_free_outcome_witness :
    check_availability_render "s0" "e0" (CalListResult.ok [⟨"Mtg", "a", "b"⟩]) =
      "You have " ++ toString ([(⟨"Mtg", "a", "b"⟩ : GEvent)].length) ++
        " conflicting event(s) during this time:\n" ++
        String.intercalate "\n" ([(⟨"Mtg", "a", "b"⟩ : GEvent)].map render_busy_event) :=
  (check_availability_free_outcome "s0" "e0" (CalListResult.ok [])).2
    [⟨"Mtg", "a", "b"⟩] (by decide)

theorem dict_get_set_ne (args : List (String × String)) (k k' v : String)
    (h : k ≠ k') : dict_get (dict_set args k' v) k = dict_get args k := by
  simp [dict_get, dict_set, List.find?_cons, Ne.symm h]

/-- C10: for a fixed argument payload and fixed calendar contents, the
result of a dispatched `check_availability` call is identical under any two
session timezone offsets: the loop injects `user_timezone` into the call's
arguments, but the tool's declared parameters are only `user_id`, `start`
and `end`, and it hands the naive timestamps to the calendar query
interpreted as UTC, so the injected offset cannot influence the result. -/
theorem check_availability_offset_noninterference
    (args : List (String × String)) (tz1 tz2 : String)
    (cal : String → String → CalListResult) :
    dispatch_check_availability args tz1 cal = dispatch_check_availability args tz2 cal := by
  have h1 := dict_get_set_ne args "user_id" "user_timezone" tz1 (by decide)
  have h2 := dict_get_set_ne args "start" "user_timezone" tz1 (by decide)
  have h3 := dict_get_set_ne args "end" "user_timezone" tz1 (by decide)
  have h4 := dict_get_set_ne args "user_id" "user_timezone" tz2 (by decide)
  have h5 := dict_get_set_ne args "start" "user_timezone" tz2 (by decide)
  have h6 := dict_get_set_ne args "end" "user_timezone" tz2 (by decide)
  simp only [dispatch_check_availability, h1, h2, h3, h4, h5, h6]

/-- C7 counterexample: a model response carrying one tool call whose name
does not resolve in the registry produces zero tool results — no
`UnknownTool` error result is appended for it (graph.py line 104 silently
skips the call). -/
theorem process_tool_calls_drops_unknown :
    process_tool_calls [⟨"call_1", "bogus_tool"⟩] (fun _ => "result") = [] ∧
    ([] : List PyToolResult).length ≠ [(⟨"call_1", "bogus_tool"⟩ : PyToolCall)].length := by
  exact ⟨by decide, by decide⟩

/-- C7 (amended): `process_tool_calls` appends exactly one result per tool
call whose name resolves in the registry, in the order the calls were
issued, before control returns to the model node; a call whose name does
not resolve is silently dropped and contributes no result. -/
theorem process_tool_calls_one_result_per_known_call
    (calls : List PyToolCall) (exec : PyToolCall → String) :
    process_tool_calls calls exec =
      (calls.filter (fun c => decide (c.name ∈ registered_tool_names))).map
        (fun c => PyToolResult.mk c.id (exec c)) := by
  induction calls with
  | nil => rfl
  | cons c rest ih =>
    by_cases h : c.name ∈ registered_tool_names
    · simp [process_tool_calls, List.filter_cons, h, ih]
    · simp [process_tool_calls, List.filter_cons, h, ih]

/-- C8: on the success path (graph invocation returned a message list from
which a non-empty final response is extracted), `run_graph` issues exactly
two history operations, in order: one append of the user turn and one
append of the final assistant turn — no tool turn is ever appended on any
path, and no clear happens on the success path. -/
theorem run_graph_persists_exactly_user_and_final (message : String) :
    (∀ msgs : List GraphMsg, extract_final_response msgs ≠ "" →
      (run_graph message (Except.ok msgs)).ops =
        [StoreOp.append "user" message,
         StoreOp.append "assistant" (extract_final_response msgs)]) ∧
    (∀ (g : Except String (List GraphMsg)) (r c : String),
      StoreOp.append r c ∈ (run_graph message g).ops →
        r = "user" ∨ r = "assistant") := by
  constructor
  · intro msgs h
    simp [run_graph, h]
  · intro g r c hmem
    cases g with
    | error e =>
      simp only [run_graph] at hmem
      split at hmem <;> simp only [List.mem_cons, List.mem_singleton, List.not_mem_nil] at hmem <;>
        rcases hmem with h | h | h <;>
          first
          | (cases h; exact Or.inl rfl)
          | (cases h)
    | ok msgs =>
      simp only [run_graph] at hmem
      split at hmem <;> simp only [List.mem_cons, List.mem_singleton, List.not_mem_nil] at hmem <;>
        rcases hmem with h | h | h <;>
          first
          | (cases h; exact Or.inl rfl)
          | (cases h; exact Or.inr rfl)
          | (cases h)

/-- C8 witness: a one-message success path persists exactly the user turn
and the assistant turn. -/
theorem run_graph_persists_witness :
    (run_graph "hi" (Except.ok [⟨"assistant", "ok", false, "ok"⟩])).ops =
      [StoreOp.append "user" "hi",
       StoreOp.append "assistant" (extract_final_response [⟨"assistant", "ok", false, "ok"⟩])] :=
  (run_graph_persists_exactly_user_and_final "hi").1
    [⟨"assistant", "ok", false, "ok"⟩] (by decide)

theorem session_send_traces_eq :
    session_send_traces =
      [[RtSend.conversationItemCreate, RtSend.responseCreate, RtSend.inputAudioAppend],
       [RtSend.conversationItemCreate, RtSend.inputAudioAppend, RtSend.responseCreate],
       [RtSend.inputAudioAppend, RtSend.conversationItemCreate, RtSend.responseCreate]] := by
  simp [session_send_traces, tool_call_send_segments, audio_send_segments, interleave_segs]

/-- C4 counterexample: the schedule in which the inbound-audio append is
sent between the conversation-item injection and the response request is a
legal cooperative interleaving — the `await asyncio.sleep(0.2)` between the
two sends of `_handle_tool_call` is a yield point at which the audio task
may run and send on the model connection. -/
theorem tool_call_sends_can_interleave :
    [RtSend.conversationItemCreate, RtSend.inputAudioAppend, RtSend.responseCreate] ∈
      session_send_traces ∧
    [RtSend.conversationItemCreate, RtSend.inputAudioAppend,
      RtSend.responseCreate].indexOf RtSend.conversationItemCreate <
      [RtSend.conversationItemCreate, RtSend.inputAudioAppend,
        RtSend.responseCreate].indexOf RtSend.inputAudioAppend ∧
    [RtSend.conversationItemCreate, RtSend.inputAudioAppend,
      RtSend.responseCreate].indexOf RtSend.inputAudioAppend <
      [RtSend.conversationItemCreate, RtSend.inputAudioAppend,
        RtSend.responseCreate].indexOf RtSend.responseCreate := by
  rw [session_send_traces_eq]
  exact ⟨by decide, by decide, by decide⟩

/-- C4 (amended): within one tool-call interception the injected
conversation item is always sent on the model connection before the
response-request event, in every legal interleaving; but other outbound
sends of the session (an inbound-audio append) may interleave between the
two, because the handler awaits a sleep between them. -/
theorem tool_call_item_before_response :
    ∀ t ∈ session_send_traces,
      t.indexOf RtSend.conversationItemCreate < t.indexOf RtSend.responseCreate := by
  rw [session_send_traces_eq]
  decide

/-- C4 witness: the ordering theorem applied to the interleaving-free
schedule. -/
theorem tool_call_item_before_response_witness :
    [RtSend.conversationItemCreate, RtSend.responseCreate,
      RtSend.inputAudioAppend].indexOf RtSend.conversationItemCreate <
      [RtSend.conversationItemCreate, RtSend.responseCreate,
        RtSend.inputAudioAppend].indexOf RtSend.responseCreate :=
  tool_call_item_before_response
    [RtSend.conversationItemCreate, RtSend.responseCreate, RtSend.inputAudioAppend]
    (by rw [session_send_traces_eq]; decide)
